import Mathlib

/-!
Shallow embedding of the `flag` command-line flag library
(`src/flag/__init__.py`): typed flags (int, float, str, bool), a global
registry, and the `parse` algorithm over an argument list.

Python scalars are modelled by `Scalar` (ints as `ℤ`, floats as
`PyFloat` — a rational together with the IEEE specials `inf`, `-inf` and
`nan`, so that the non-reflexivity of float equality at NaN is part of
the model — strings as `String`, bools as `Bool`).  Fatal `_write_exc`
exits are
modelled as `Except FlagError`; the two places where the Python code can
raise an *uncaught* exception (`argv.pop(0)` on an empty list, and tuple
unpacking of `arg.split('=')` when the token holds more than one `=`)
are modelled by the distinguished errors `uncaughtIndexError` and
`uncaughtValueError`.
-/

set_option autoImplicit false

namespace FlagLib

/-- The four flag kinds (the `flag_type` field: `int`, `float`, `str`, `bool`). -/
inductive FlagKind where
  | int
  | float
  | str
  | bool
  deriving DecidableEq, Repr

/-- A Python float: a finite value (modelled as a rational — every IEEE
double is one) or one of the specials `inf`, `-inf`, `nan`.  `nan`
compares unequal to everything, itself included. -/
inductive PyFloat where
  | finite (q : ℚ)
  | inf
  | ninf
  | nan
  deriving DecidableEq, Repr

/-- A Python scalar value as it occurs in this library. -/
inductive Scalar where
  | int (n : ℤ)
  | float (x : PyFloat)
  | str (s : String)
  | bool (b : Bool)
  deriving DecidableEq, Repr

/-- The error taxonomy.  The first eight mirror the `_write_exc` messages;
the last two model uncaught Python exceptions (`IndexError` from
`argv.pop(0)` on an empty list, `ValueError` from unpacking
`arg.split('=')` into two variables when it yields ≠ 2 parts). -/
inductive FlagError where
  | typeMismatch (name : String)
  | ambiguousPlaceholder (desc : String)
  | duplicateFlag (name : String)
  | conversionFailure (name : String)
  | invalidFormat (arg : String)
  | unknownFlag (name : String)
  | booleanFormatRequired (hint : String)
  | missingMandatoryFlag (name : String)
  | uncaughtIndexError
  | uncaughtValueError (arg : String)
  deriving DecidableEq, Repr

/-- `_Flag._check_against(default, flag_type)`: Python `isinstance`.
Note that Python `bool` is a subclass of `int`, so a `bool` default
passes the check for an `int` flag. -/
def typeCheck : Scalar → FlagKind → Bool
  | .int _, .int => true
  | .bool _, .int => true
  | .float _, .float => true
  | .str _, .str => true
  | .bool _, .bool => true
  | _, _ => false

/-- Scanner for `re.findall(r"'(.*?)'", desc)`.
State `none`: outside any candidate match; state `some acc`: we have seen
an opening quote and `acc` holds the (reversed) characters matched so far
by the lazy group.  `.` in the pattern does not match a newline, and when
the candidate match fails at a newline the regex engine resumes scanning
after the opening quote — since no quote occurs before that newline, this
is the same as resuming after the newline. -/
def goQuotes : Option (List Char) → List Char → List String
  | _, [] => []
  | none, '\'' :: r => goQuotes (some []) r
  | none, _ :: r => goQuotes none r
  | some acc, '\'' :: r => String.mk acc.reverse :: goQuotes none r
  | some _, '\n' :: r => goQuotes none r
  | some acc, c :: r => goQuotes (some (c :: acc)) r

/-- All substrings captured by `re.findall(r"'(.*?)'", desc)`, in order. -/
def findQuoted (cs : List Char) : List String :=
  goQuotes none cs

/-- Python `s.replace("'", '')`: remove every single-quote character. -/
def removeSQ (s : String) : String :=
  String.mk (s.data.filter (fun c => c ≠ '\''))

/-- `_Flag._get_arg_name(desc)`: zero matches → `''`; more than one →
fatal `AmbiguousPlaceholder`; exactly one → the match with quote
characters removed. -/
def getArgName (desc : String) : Except FlagError String :=
  match findQuoted desc.data with
  | [] => .ok ""
  | [m] => .ok (removeSQ m)
  | _ => .error (.ambiguousPlaceholder desc)

/-- The description-processing fragment of `_Flag.__init__`: computes
`arg_name` via `_get_arg_name` and, when `arg_name` is truthy (non-empty),
strips every quote character from the stored description. -/
def descInit (desc : String) : Except FlagError (String × String) :=
  match getArgName desc with
  | .error e => .error e
  | .ok argName => .ok (argName, if argName ≠ "" then removeSQ desc else desc)

/-- The `_Flag` object: `name`, `default`, `desc` (after quote stripping),
`mandatory`, `type`, `arg_name`, and the current `_value`. -/
structure Flag where
  name : String
  default : Scalar
  desc : String
  mandatory : Bool
  type : FlagKind
  arg_name : String
  _value : Scalar
  deriving DecidableEq, Repr

/-- `_Flag.__init__` without the self-registration step: validates the
default against the declared kind, processes the description, and
initializes `_value` to the default. -/
def Flag.init (name : String) (default : Scalar) (kind : FlagKind)
    (desc : String) (mandatory : Bool) : Except FlagError Flag :=
  if typeCheck default kind then
    match descInit desc with
    | .error e => .error e
    | .ok (argName, desc') =>
      .ok { name := name, default := default, desc := desc',
            mandatory := mandatory, type := kind, arg_name := argName,
            _value := default }
  else
    .error (.typeMismatch name)

/-- IEEE `==` on non-NaN floats: finite values compare as rationals,
each infinity equals only itself.  (NaN never reaches a `numEq` call via
`Scalar.toNum?`; for completeness it is unequal to everything here too.) -/
def PyFloat.numEq : PyFloat → PyFloat → Bool
  | .finite a, .finite b => decide (a = b)
  | .inf, .inf => true
  | .ninf, .ninf => true
  | _, _ => false

/-- IEEE `<` on non-NaN floats. -/
def PyFloat.numLt : PyFloat → PyFloat → Bool
  | .finite a, .finite b => decide (a < b)
  | .finite _, .inf => true
  | .ninf, .finite _ => true
  | .ninf, .inf => true
  | _, _ => false

/-- IEEE `<=` on non-NaN floats. -/
def PyFloat.numLe (a b : PyFloat) : Bool :=
  a.numLt b || a.numEq b

/-- Comparable numeric view of a scalar, when it has one (Python `bool`
is numeric: `True == 1`).  A string has none; a float NaN has none
either — NaN compares false with everything, itself included. -/
def Scalar.toNum? : Scalar → Option PyFloat
  | .int n => some (.finite (n : ℚ))
  | .float .nan => none
  | .float x => some x
  | .bool b => some (.finite (if b then 1 else 0))
  | .str _ => none

/-- Python `==` on the scalars this library compares: numeric values
compare numerically across int/float/bool (a NaN operand makes the
comparison false); strings compare as strings; a string never equals a
number. -/
def pyEq (a b : Scalar) : Bool :=
  match a.toNum?, b.toNum? with
  | some x, some y => x.numEq y
  | _, _ =>
    match a, b with
    | .str s, .str t => decide (s = t)
    | _, _ => false

/-- `_Flag.is_default`: `self.value == self.default`. -/
def Flag.is_default (f : Flag) : Bool :=
  pyEq f._value f.default

/-- Python `c in s` for a character: membership in the string. -/
def strContainsChar (s : String) (c : Char) : Bool :=
  s.data.contains c

/-- Python `s.startswith(pre)`. -/
def strStartsWith (s pre : String) : Bool :=
  pre.data.isPrefixOf s.data

/-- Split a character list at every occurrence of `c` (Python
`str.split(sep)` semantics for a one-character separator, no maxsplit). -/
def splitOnChar (c : Char) : List Char → List (List Char)
  | [] => [[]]
  | x :: xs =>
    if x = c then
      [] :: splitOnChar c xs
    else
      match splitOnChar c xs with
      | [] => [[x]]
      | h :: t => (x :: h) :: t

/-- Python `s.split(sep)` for a one-character separator. -/
def pySplit (s : String) (c : Char) : List String :=
  (splitOnChar c s.data).map String.mk

/-- Python `str.strip()` with no argument: remove leading and trailing
whitespace. -/
def trimChars (cs : List Char) : List Char :=
  ((cs.dropWhile Char.isWhitespace).reverse.dropWhile Char.isWhitespace).reverse

/-- Value of a non-empty all-digit character list, `none` otherwise. -/
def digitsToNat? (cs : List Char) : Option Nat :=
  if cs ≠ [] ∧ cs.all (fun c => c.isDigit) then
    some (cs.foldl (fun a c => a * 10 + (c.toNat - 48)) 0)
  else
    none

/-- Python `int(s)` on a string: surrounding whitespace stripped, optional
sign, then decimal digits; anything else raises `ValueError` (`none`). -/
def strToInt (s : String) : Option ℤ :=
  match trimChars s.data with
  | '-' :: rest => (digitsToNat? rest).map (fun n => -(n : ℤ))
  | '+' :: rest => (digitsToNat? rest).map (fun n => (n : ℤ))
  | cs => (digitsToNat? cs).map (fun n => (n : ℤ))

/-- Value of a possibly-empty all-digit character list. -/
def digitsVal? (cs : List Char) : Option Nat :=
  if cs.all (fun c => c.isDigit) then
    some (cs.foldl (fun a c => a * 10 + (c.toNat - 48)) 0)
  else
    none

/-- Python `float(s)` on a string (the decimal forms used by this
library): optional sign, integer digits and optional fractional digits,
at least one digit overall. -/
def strToFloat (s : String) : Option PyFloat :=
  let t := trimChars s.data
  let (neg, u) :=
    match t with
    | '-' :: r => (true, r)
    | '+' :: r => (false, r)
    | _ => (false, t)
  let low := u.map Char.toLower
  if low = ['i', 'n', 'f'] ∨ low = ['i', 'n', 'f', 'i', 'n', 'i', 't', 'y'] then
    some (if neg then .ninf else .inf)
  else if low = ['n', 'a', 'n'] then
    some .nan
  else
    let q? : Option ℚ :=
      match splitOnChar '.' u with
      | [a] => (digitsToNat? a).map (fun n => (n : ℚ))
      | [a, b] =>
        if a = [] ∧ b = [] then none
        else
          match digitsVal? a, digitsVal? b with
          | some na, some nb => some ((na : ℚ) + (nb : ℚ) / ((10 : ℚ) ^ b.length))
          | _, _ => none
      | _ => none
    q?.map (fun q => .finite (if neg then -q else q))

/-- Python `int(x)` on the scalars that can reach the setter: identity on
ints, `0`/`1` on bools, truncation toward zero on floats, decimal parse
on strings. -/
def pyIntConv : Scalar → Option ℤ
  | .int n => some n
  | .bool b => some (if b then 1 else 0)
  | .float (.finite q) => some (if q < 0 then ⌈q⌉ else ⌊q⌋)
  | .float _ => none
  | .str s => strToInt s

/-- Python `float(x)`. -/
def pyFloatConv : Scalar → Option PyFloat
  | .int n => some (.finite (n : ℚ))
  | .bool b => some (.finite (if b then 1 else 0))
  | .float x => some x
  | .str s => strToFloat s

/-- Python `str(x)` for the scalars of this library. -/
def pyStrConv : Scalar → String
  | .str s => s
  | .bool b => if b then "True" else "False"
  | .int n => toString n
  | .float (.finite q) => toString q
  | .float .inf => "inf"
  | .float .ninf => "-inf"
  | .float .nan => "nan"

/-- Python `bool(x)`: truthiness (`bool(nan)` and `bool(±inf)` are
`True`). -/
def pyBoolConv : Scalar → Bool
  | .str s => s ≠ ""
  | .bool b => b
  | .int n => n ≠ 0
  | .float (.finite q) => q ≠ 0
  | .float _ => true

/-- The value setter's conversion `self.type(value)`; `none` models the
`ValueError` caught by the setter (reported as `ConversionFailure`). -/
def convertTo (k : FlagKind) (v : Scalar) : Option Scalar :=
  match k with
  | .int => (pyIntConv v).map .int
  | .float => (pyFloatConv v).map .float
  | .str => some (.str (pyStrConv v))
  | .bool => some (.bool (pyBoolConv v))

/-- The module-level registry state: `_flags_registered` (insertion
order preserved, as for a Python dict) and the names held by
`_unsatisfied_mandatory` (only the flag's name is ever read from it). -/
structure Registry where
  flags_registered : List Flag
  unsatisfied_mandatory : List String
  deriving DecidableEq, Repr

/-- The empty initial registry. -/
def Registry.empty : Registry :=
  { flags_registered := [], unsatisfied_mandatory := [] }

/-- Dict lookup `_flags_registered[name]` (names are unique by
registration, so first match is the entry). -/
def findFlag (R : Registry) (name : String) : Option Flag :=
  R.flags_registered.find? (fun f => f.name = name)

/-- `_register_flag(flag)`: fatal `DuplicateFlag` if the name exists,
otherwise insert; mandatory flags also enter `_unsatisfied_mandatory`. -/
def registerFlag (R : Registry) (f : Flag) : Except FlagError Registry :=
  match findFlag R f.name with
  | some _ => .error (.duplicateFlag f.name)
  | none =>
    .ok { flags_registered := R.flags_registered ++ [f],
          unsatisfied_mandatory :=
            if f.mandatory then R.unsatisfied_mandatory ++ [f.name]
            else R.unsatisfied_mandatory }

/-- Construct a flag and self-register it (`_Flag.__init__` in full). -/
def newFlag (R : Registry) (name : String) (default : Scalar)
    (kind : FlagKind) (desc : String) (mandatory : Bool) :
    Except FlagError Registry :=
  match Flag.init name default kind desc mandatory with
  | .error e => .error e
  | .ok f => registerFlag R f

/-- Python `real_name.replace('-', '')`: strip every dash. -/
def dashStrip (s : String) : String :=
  String.mk (s.data.filter (fun c => c ≠ '-'))

/-- `matched_flag.value = conv`: in-place mutation of the flag object held
in the registry dict. -/
def updateFlag (R : Registry) (name : String) (v : Scalar) : Registry :=
  let setv := fun (g : Flag) => if g.name = name then { g with _value := v } else g
  { R with flags_registered := R.flags_registered.map setv }

/-- The per-token tail of the loop body of `parse`: strip dashes, look the
name up, reject wrong-syntax boolean flags, convert and assign.  `hadEq`
records `'=' in arg` (it only feeds the hint text of the boolean-format
error).  Returns the updated registry and the name appended to
`flags_provided`. -/
def applyToken (R : Registry) (realName : String) (value : Scalar)
    (hadEq : Bool) : Except FlagError (Registry × String) :=
  match findFlag R (dashStrip realName) with
  | none => .error (.unknownFlag (dashStrip realName))
  | some f =>
    if f.type = FlagKind.bool ∧ ¬ strStartsWith realName "--" then
      .error (.booleanFormatRequired
        (if hadEq then "-flag_name=value" else "-flag_name value"))
    else
      match convertTo f.type value with
      | none => .error (.conversionFailure (dashStrip realName))
      | some conv => .ok (updateFlag R (dashStrip realName) conv, dashStrip realName)

/-- The `while len(argv) != 0` loop of `parse`.  `acc` is
`flags_provided` so far.  Token shapes: `=`-form (split at every `=`,
unpack into exactly two parts or raise `ValueError`), `--name`
(boolean-literal `True` value), `-name value` (pop the next token,
raising an uncaught `IndexError` when there is none), otherwise
`InvalidFormat`. -/
def parseLoop (R : Registry) (argv acc : List String) :
    Except FlagError (Registry × List String) :=
  match argv with
  | [] => .ok (R, acc)
  | arg :: rest =>
    if strContainsChar arg '=' then
      match pySplit arg '=' with
      | [rn, v] =>
        match applyToken R rn (.str v) true with
        | .error e => .error e
        | .ok (R', name) => parseLoop R' rest (acc ++ [name])
      | _ => .error (.uncaughtValueError arg)
    else if strStartsWith arg "--" then
      match applyToken R arg (.bool true) false with
      | .error e => .error e
      | .ok (R', name) => parseLoop R' rest (acc ++ [name])
    else if strStartsWith arg "-" then
      match rest with
      | [] => .error .uncaughtIndexError
      | v :: rest' =>
        match applyToken R arg (.str v) false with
        | .error e => .error e
        | .ok (R', name) => parseLoop R' rest' (acc ++ [name])
    else
      .error (.invalidFormat arg)

/-- One-step unfolding of `parseLoop` on a non-empty argument list. -/
theorem parseLoop_cons (R : Registry) (arg : String) (rest acc : List String) :
    parseLoop R (arg :: rest) acc =
      if strContainsChar arg '=' then
        match pySplit arg '=' with
        | [rn, v] =>
          match applyToken R rn (.str v) true with
          | .error e => .error e
          | .ok (R', name) => parseLoop R' rest (acc ++ [name])
        | _ => .error (.uncaughtValueError arg)
      else if strStartsWith arg "--" then
        match applyToken R arg (.bool true) false with
        | .error e => .error e
        | .ok (R', name) => parseLoop R' rest (acc ++ [name])
      else if strStartsWith arg "-" then
        match rest with
        | [] => .error .uncaughtIndexError
        | v :: rest' =>
          match applyToken R arg (.str v) false with
          | .error e => .error e
          | .ok (R', name) => parseLoop R' rest' (acc ++ [name])
      else
        .error (.invalidFormat arg) := by
  cases rest <;> rfl

/-- `parse()`: run the token loop over `argv` (already stripped of the
program name), then pop every provided name from
`_unsatisfied_mandatory`; if any mandatory flag remains unsatisfied, fail
naming the first remaining one.  Returns the final registry state and
`flags_provided`. -/
def parse (R : Registry) (argv : List String) :
    Except FlagError (Registry × List String) :=
  match parseLoop R argv [] with
  | .error e => .error e
  | .ok (R', provided) =>
    match R'.unsatisfied_mandatory.filter (fun n => ¬ provided.contains n) with
    | [] => .ok ({ R' with unsatisfied_mandatory := [] }, provided)
    | m :: _ => .error (.missingMandatoryFlag m)

/-- Python `<` on the scalars this library compares: `TypeError` (i.e.
`none`) between a string and a number; between numbers, a NaN operand
makes the comparison `False` (not an error). -/
def pyLt (a b : Scalar) : Option Bool :=
  match a, b with
  | .str s, .str t => some (decide (s < t))
  | .str _, _ => none
  | _, .str _ => none
  | _, _ =>
    match a.toNum?, b.toNum? with
    | some x, some y => some (x.numLt y)
    | _, _ => some false

/-- Python `<=`. -/
def pyLe (a b : Scalar) : Option Bool :=
  match a, b with
  | .str s, .str t => some (decide (s ≤ t))
  | .str _, _ => none
  | _, .str _ => none
  | _, _ =>
    match a.toNum?, b.toNum? with
    | some x, some y => some (x.numLe y)
    | _, _ => some false

/-- Python `>`. -/
def pyGt (a b : Scalar) : Option Bool :=
  pyLt b a

/-- Python `>=`. -/
def pyGe (a b : Scalar) : Option Bool :=
  pyLe b a

/-- `IntFlag.__eq__`: `self.value == int(o)` (`none` models the exception
raised by `int(o)` for an unconvertible operand). -/
def IntFlag.eqM (f : Flag) (o : Scalar) : Option Bool :=
  (pyIntConv o).map (fun n => pyEq f._value (.int n))

/-- `IntFlag.__ne__`: `self.value != int(o)`. -/
def IntFlag.neM (f : Flag) (o : Scalar) : Option Bool :=
  (pyIntConv o).map (fun n => !(pyEq f._value (.int n)))

/-- `IntFlag.__lt__`: `self.value < int(o)`. -/
def IntFlag.ltM (f : Flag) (o : Scalar) : Option Bool :=
  (pyIntConv o).bind (fun n => pyLt f._value (.int n))

/-- `IntFlag.__le__`. -/
def IntFlag.leM (f : Flag) (o : Scalar) : Option Bool :=
  (pyIntConv o).bind (fun n => pyLe f._value (.int n))

/-- `IntFlag.__gt__`. -/
def IntFlag.gtM (f : Flag) (o : Scalar) : Option Bool :=
  (pyIntConv o).bind (fun n => pyGt f._value (.int n))

/-- `IntFlag.__ge__`. -/
def IntFlag.geM (f : Flag) (o : Scalar) : Option Bool :=
  (pyIntConv o).bind (fun n => pyGe f._value (.int n))

/-- `FloatFlag.__eq__`: `self.value == float(o)`. -/
def FloatFlag.eqM (f : Flag) (o : Scalar) : Option Bool :=
  (pyFloatConv o).map (fun q => pyEq f._value (.float q))

/-- `FloatFlag.__ne__`. -/
def FloatFlag.neM (f : Flag) (o : Scalar) : Option Bool :=
  (pyFloatConv o).map (fun q => !(pyEq f._value (.float q)))

/-- `FloatFlag.__lt__`. -/
def FloatFlag.ltM (f : Flag) (o : Scalar) : Option Bool :=
  (pyFloatConv o).bind (fun q => pyLt f._value (.float q))

/-- `FloatFlag.__le__`. -/
def FloatFlag.leM (f : Flag) (o : Scalar) : Option Bool :=
  (pyFloatConv o).bind (fun q => pyLe f._value (.float q))

/-- `FloatFlag.__gt__`. -/
def FloatFlag.gtM (f : Flag) (o : Scalar) : Option Bool :=
  (pyFloatConv o).bind (fun q => pyGt f._value (.float q))

/-- `FloatFlag.__ge__`. -/
def FloatFlag.geM (f : Flag) (o : Scalar) : Option Bool :=
  (pyFloatConv o).bind (fun q => pyGe f._value (.float q))

/-- The scalar that `self.type(True)` produces for each kind:
`int(True) = 1`, `float(True) = 1.0`, `str(True) = 'True'`,
`bool(True) = True`. -/
def boolTrueAs : FlagKind → Scalar
  | .int => .int 1
  | .float => .float (.finite 1)
  | .str => .str "True"
  | .bool => .bool true

theorem pyEq_refl_of_ne_nan (s : Scalar) (h : s ≠ .float .nan) :
    pyEq s s = true := by
  cases s with
  | int n => simp [pyEq, Scalar.toNum?, PyFloat.numEq]
  | bool b => simp [pyEq, Scalar.toNum?, PyFloat.numEq]
  | str t => simp [pyEq, Scalar.toNum?]
  | float x =>
    cases x with
    | finite q => simp [pyEq, Scalar.toNum?, PyFloat.numEq]
    | inf => rfl
    | ninf => rfl
    | nan => exact absurd rfl h

theorem pyEq_nan_nan : pyEq (.float .nan) (.float .nan) = false :=
  rfl

theorem pyEq_symm_int (n : ℤ) (s : Scalar) :
    pyEq s (.int n) = pyEq (.int n) s := by
  cases s with
  | int m => simp [pyEq, Scalar.toNum?, PyFloat.numEq, eq_comm]
  | bool b => simp [pyEq, Scalar.toNum?, PyFloat.numEq, eq_comm]
  | str t => rfl
  | float x => cases x <;> simp [pyEq, Scalar.toNum?, PyFloat.numEq, eq_comm]

theorem pyEq_symm_float (x : PyFloat) (s : Scalar) :
    pyEq s (.float x) = pyEq (.float x) s := by
  cases s with
  | int m => cases x <;> simp [pyEq, Scalar.toNum?, PyFloat.numEq, eq_comm]
  | bool b => cases x <;> simp [pyEq, Scalar.toNum?, PyFloat.numEq, eq_comm]
  | str t => cases x <;> rfl
  | float y =>
    cases x <;> cases y <;> simp [pyEq, Scalar.toNum?, PyFloat.numEq, eq_comm]

theorem convertTo_boolTrue (k : FlagKind) :
    convertTo k (.bool true) = some (boolTrueAs k) := by
  cases k <;>
    simp [convertTo, pyIntConv, pyFloatConv, pyStrConv, pyBoolConv, boolTrueAs]

theorem find?_map_update_other (l : List Flag) (m n : String) (v : Scalar)
    (hnm : n ≠ m) :
    (l.map (fun g => if g.name = m then { g with _value := v } else g)).find?
        (fun f => f.name = n)
      = l.find? (fun f => f.name = n) := by
  induction l with
  | nil => rfl
  | cons g l ih =>
    simp only [List.map_cons]
    by_cases hg : g.name = m
    · rw [if_pos hg]
      rw [List.find?_cons_of_neg, List.find?_cons_of_neg]
      · exact ih
      · simp [hg, Ne.symm hnm]
      · simp [hg, Ne.symm hnm]
    · rw [if_neg hg]
      by_cases hn : g.name = n
      · rw [List.find?_cons_of_pos, List.find?_cons_of_pos] <;> simp [hn]
      · rw [List.find?_cons_of_neg, List.find?_cons_of_neg]
        · exact ih
        · simp [hn]
        · simp [hn]

theorem find?_map_update_self (l : List Flag) (m : String) (v : Scalar) :
    (l.map (fun g => if g.name = m then { g with _value := v } else g)).find?
        (fun f => f.name = m)
      = (l.find? (fun f => f.name = m)).map
          (fun f => { f with _value := v }) := by
  induction l with
  | nil => rfl
  | cons g l ih =>
    by_cases hg : g.name = m
    · simp [List.find?, hg]
    · simp [List.find?, hg, ih]

theorem findFlag_update_other (R : Registry) (m n : String) (v : Scalar)
    (hnm : n ≠ m) : findFlag (updateFlag R m v) n = findFlag R n := by
  simpa [findFlag, updateFlag] using
    find?_map_update_other R.flags_registered m n v hnm

theorem findFlag_update_self (R : Registry) (m : String) (v : Scalar) :
    findFlag (updateFlag R m v) m
      = (findFlag R m).map (fun f => { f with _value := v }) := by
  simpa [findFlag, updateFlag] using
    find?_map_update_self R.flags_registered m v

theorem updateFlag_mand (R : Registry) (m : String) (v : Scalar) :
    (updateFlag R m v).unsatisfied_mandatory = R.unsatisfied_mandatory :=
  rfl

theorem applyToken_ok (R : Registry) (rn : String) (v : Scalar) (b : Bool)
    (R' : Registry) (name : String)
    (h : applyToken R rn v b = .ok (R', name)) :
    name = dashStrip rn ∧ ∃ conv, R' = updateFlag R name conv := by
  unfold applyToken at h
  cases hf : findFlag R (dashStrip rn) with
  | none => rw [hf] at h; exact absurd h (by simp)
  | some f =>
    rw [hf] at h
    dsimp only at h
    by_cases hb : f.type = FlagKind.bool ∧ ¬ strStartsWith rn "--"
    · rw [if_pos hb] at h; exact absurd h (by simp)
    · rw [if_neg hb] at h
      cases hc : convertTo f.type v with
      | none => rw [hc] at h; exact absurd h (by simp)
      | some conv =>
        rw [hc] at h
        injection h with h1
        cases h1
        exact ⟨rfl, conv, rfl⟩

theorem applyToken_mand (R : Registry) (rn : String) (v : Scalar) (b : Bool)
    (R' : Registry) (name : String)
    (h : applyToken R rn v b = .ok (R', name)) :
    R'.unsatisfied_mandatory = R.unsatisfied_mandatory := by
  obtain ⟨-, conv, rfl⟩ := applyToken_ok R rn v b R' name h
  rfl

theorem applyToken_frame (R : Registry) (rn : String) (v : Scalar) (b : Bool)
    (R' : Registry) (name : String) (n : String)
    (h : applyToken R rn v b = .ok (R', name)) (hn : n ≠ name) :
    findFlag R' n = findFlag R n := by
  obtain ⟨-, conv, rfl⟩ := applyToken_ok R rn v b R' name h
  exact findFlag_update_other R name n conv hn

/-- Master specification of a successful token loop: the mandatory set is
untouched, the returned `flags_provided` extends the accumulator, and any
flag whose name is not in `flags_provided` is left exactly as it was. -/
theorem parseLoop_ok_spec (R : Registry) (argv acc : List String) :
    ∀ R' p, parseLoop R argv acc = .ok (R', p) →
      R'.unsatisfied_mandatory = R.unsatisfied_mandatory ∧
      (∃ q, p = acc ++ q) ∧
      (∀ n, n ∉ p → findFlag R' n = findFlag R n) := by
  induction R, argv, acc using parseLoop.induct with
  | case1 R acc =>
    intro R' p h
    simp only [parseLoop.eq_1, Except.ok.injEq, Prod.mk.injEq] at h
    obtain ⟨rfl, rfl⟩ := h
    exact ⟨rfl, ⟨[], by simp⟩, fun n _ => rfl⟩
  | case2 R acc arg rest hc rn v hsplit e herr =>
    intro R' p h
    rw [parseLoop_cons] at h
    simp [hc, hsplit, herr] at h
  | case3 R acc arg rest hc rn v hsplit R1 name hok ih =>
    intro R' p h
    rw [parseLoop_cons] at h
    simp only [hc, hsplit, hok, if_true] at h
    obtain ⟨hm, ⟨q, rfl⟩, hframe⟩ := ih R' p h
    refine ⟨hm.trans (applyToken_mand _ _ _ _ _ _ hok), ⟨name :: q, by simp⟩, ?_⟩
    intro n hn
    have hname : name ∈ acc ++ [name] ++ q := by simp
    have hne : n ≠ name := fun he => hn (he ▸ hname)
    exact (hframe n hn).trans (applyToken_frame _ _ _ _ _ _ _ hok hne)
  | case4 R acc arg rest hc hnosplit =>
    intro R' p h
    rw [parseLoop_cons] at h
    rcases hs : pySplit arg '=' with _ | ⟨a, t⟩
    · simp [hc, hs] at h
    · rcases t with _ | ⟨b, t'⟩
      · simp [hc, hs] at h
      · rcases t' with _ | ⟨c, t''⟩
        · exact absurd hs (fun hx => hnosplit a b hx)
        · simp [hc, hs] at h
  | case5 R acc arg rest hc hdd e herr =>
    intro R' p h
    rw [parseLoop_cons] at h
    simp [hc, hdd, herr] at h
  | case6 R acc arg rest hc hdd R1 name hok ih =>
    intro R' p h
    rw [parseLoop_cons] at h
    simp only [hc, hdd, hok, if_true, if_false, Bool.false_eq_true] at h
    obtain ⟨hm, ⟨q, rfl⟩, hframe⟩ := ih R' p h
    refine ⟨hm.trans (applyToken_mand _ _ _ _ _ _ hok), ⟨name :: q, by simp⟩, ?_⟩
    intro n hn
    have hname : name ∈ acc ++ [name] ++ q := by simp
    have hne : n ≠ name := fun he => hn (he ▸ hname)
    exact (hframe n hn).trans (applyToken_frame _ _ _ _ _ _ _ hok hne)
  | case7 R acc arg hc hdd hsd =>
    intro R' p h
    rw [parseLoop_cons] at h
    simp [hc, hdd, hsd] at h
  | case8 R acc arg hc hdd hsd v rest' e herr =>
    intro R' p h
    rw [parseLoop_cons] at h
    simp [hc, hdd, hsd, herr] at h
  | case9 R acc arg hc hdd hsd v rest' R1 name hok ih =>
    intro R' p h
    rw [parseLoop_cons] at h
    simp only [hc, hdd, hsd, hok, if_true, if_false, Bool.false_eq_true] at h
    obtain ⟨hm, ⟨q, rfl⟩, hframe⟩ := ih R' p h
    refine ⟨hm.trans (applyToken_mand _ _ _ _ _ _ hok), ⟨name :: q, by simp⟩, ?_⟩
    intro n hn
    have hname : name ∈ acc ++ [name] ++ q := by simp
    have hne : n ≠ name := fun he => hn (he ▸ hname)
    exact (hframe n hn).trans (applyToken_frame _ _ _ _ _ _ _ hok hne)
  | case10 R acc arg rest hc hdd hsd =>
    intro R' p h
    rw [parseLoop_cons] at h
    simp [hc, hdd, hsd] at h

theorem applyToken_bool_wrongform (R : Registry) (rn : String) (v : Scalar)
    (b : Bool) (f : Flag)
    (hfind : findFlag R (dashStrip rn) = some f)
    (htype : f.type = FlagKind.bool)
    (hdd : strStartsWith rn "--" = false) :
    applyToken R rn v b =
      .error (.booleanFormatRequired
        (if b then "-flag_name=value" else "-flag_name value")) := by
  unfold applyToken
  rw [hfind]
  dsimp only
  rw [if_pos ⟨htype, by simp [hdd]⟩]

theorem applyToken_assign (R : Registry) (rn : String) (v : Scalar)
    (b : Bool) (f : Flag) (conv : Scalar)
    (hfind : findFlag R (dashStrip rn) = some f)
    (hnb : ¬ (f.type = FlagKind.bool ∧ ¬ strStartsWith rn "--"))
    (hconv : convertTo f.type v = some conv) :
    applyToken R rn v b = .ok (updateFlag R (dashStrip rn) conv, dashStrip rn) := by
  unfold applyToken
  rw [hfind]
  dsimp only
  rw [if_neg hnb, hconv]

theorem parseLoop_eqForm_err (R : Registry) (arg : String) (rest acc : List String)
    (rn v : String) (e : FlagError)
    (hc : strContainsChar arg '=' = true) (hsplit : pySplit arg '=' = [rn, v])
    (herr : applyToken R rn (.str v) true = .error e) :
    parseLoop R (arg :: rest) acc = .error e := by
  rw [parseLoop_cons]
  simp [hc, hsplit, herr]

theorem parseLoop_eqForm_ok (R : Registry) (arg : String) (rest acc : List String)
    (rn v : String) (R1 : Registry) (name : String)
    (hc : strContainsChar arg '=' = true) (hsplit : pySplit arg '=' = [rn, v])
    (hok : applyToken R rn (.str v) true = .ok (R1, name)) :
    parseLoop R (arg :: rest) acc = parseLoop R1 rest (acc ++ [name]) := by
  rw [parseLoop_cons]
  simp [hc, hsplit, hok]

theorem parseLoop_dd_err (R : Registry) (arg : String) (rest acc : List String)
    (e : FlagError)
    (hc : strContainsChar arg '=' = false) (hdd : strStartsWith arg "--" = true)
    (herr : applyToken R arg (.bool true) false = .error e) :
    parseLoop R (arg :: rest) acc = .error e := by
  rw [parseLoop_cons]
  simp [hc, hdd, herr]

theorem parseLoop_dd_ok (R : Registry) (arg : String) (rest acc : List String)
    (R1 : Registry) (name : String)
    (hc : strContainsChar arg '=' = false) (hdd : strStartsWith arg "--" = true)
    (hok : applyToken R arg (.bool true) false = .ok (R1, name)) :
    parseLoop R (arg :: rest) acc = parseLoop R1 rest (acc ++ [name]) := by
  rw [parseLoop_cons]
  simp [hc, hdd, hok]

theorem parseLoop_sd_err (R : Registry) (arg v : String) (rest' acc : List String)
    (e : FlagError)
    (hc : strContainsChar arg '=' = false) (hdd : strStartsWith arg "--" = false)
    (hsd : strStartsWith arg "-" = true)
    (herr : applyToken R arg (.str v) false = .error e) :
    parseLoop R (arg :: v :: rest') acc = .error e := by
  rw [parseLoop_cons]
  simp [hc, hdd, hsd, herr]

theorem parseLoop_sd_ok (R : Registry) (arg v : String) (rest' acc : List String)
    (R1 : Registry) (name : String)
    (hc : strContainsChar arg '=' = false) (hdd : strStartsWith arg "--" = false)
    (hsd : strStartsWith arg "-" = true)
    (hok : applyToken R arg (.str v) false = .ok (R1, name)) :
    parseLoop R (arg :: v :: rest') acc = parseLoop R1 rest' (acc ++ [name]) := by
  rw [parseLoop_cons]
  simp [hc, hdd, hsd, hok]

/-- Test registry: a single non-mandatory `IntFlag` named `x`, default 0. -/
def regIntX : Registry :=
  { flags_registered := [⟨"x", .int 0, "", false, .int, "", .int 0⟩],
    unsatisfied_mandatory := [] }

/-- Test registry: a single `BoolFlag` named `verbose`. -/
def regBoolVerbose : Registry :=
  { flags_registered := [⟨"verbose", .bool false, "", false, .bool, "", .bool false⟩],
    unsatisfied_mandatory := [] }

/-- Test registry: a single non-mandatory `StrFlag` named `flag`. -/
def regStrFlag : Registry :=
  { flags_registered := [⟨"flag", .str "", "", false, .str, "", .str ""⟩],
    unsatisfied_mandatory := [] }

/-- Test registry: a single mandatory `StrFlag` named `target`. -/
def regStrMand : Registry :=
  { flags_registered := [⟨"target", .str "", "", true, .str, "", .str ""⟩],
    unsatisfied_mandatory := ["target"] }

/-- Test registry: two non-mandatory `IntFlag`s named `x` and `y`. -/
def regXY : Registry :=
  { flags_registered := [⟨"x", .int 0, "", false, .int, "", .int 0⟩,
                         ⟨"y", .int 7, "", false, .int, "", .int 7⟩],
    unsatisfied_mandatory := [] }

/-- `regXY` after `parse` assigned `x := 1`. -/
def regXY1 : Registry :=
  { flags_registered := [⟨"x", .int 0, "", false, .int, "", .int 1⟩,
                         ⟨"y", .int 7, "", false, .int, "", .int 7⟩],
    unsatisfied_mandatory := [] }

/-- Claim C1, counterexample: with a registered boolean flag `verbose`,
the `=`-form token `--verbose=x` does NOT fail with
`BooleanFormatRequired` — because the part before the `=` starts with
`--`, the check `real_name.startswith('--')` passes, and `parse`
succeeds, assigning `bool('x') = True`.  The claim states that every
`=`-form reference to a boolean flag fails. -/
theorem claim1_counterexample :
    parse regBoolVerbose ["--verbose=x"] =
      .ok ({ flags_registered :=
               [⟨"verbose", .bool false, "", false, .bool, "", .bool true⟩],
             unsatisfied_mandatory := [] }, ["verbose"]) := by
  rfl

/-- Claim C2: the code's actual behavior at the claimed input class.  For
an argument list whose final token starts with a single `-`, contains no
`=`, and has no following token, `parse` performs `argv.pop(0)` on an
empty list — an uncaught `IndexError` — instead of reaching the
`InvalidFormat`/`MissingValue` error branch that the claim (and the
spec's prescription) describes. -/
theorem claim2_code_behavior :
    parse regStrFlag ["-flag"] = .error .uncaughtIndexError := by
  rfl

/-- Claim C3: the code's actual behavior on `-flag=a=b`.  Python's
`arg.split('=')` splits at EVERY `=`, so the token yields three parts and
the two-variable unpacking `real_name, value = arg.split('=')` raises an
uncaught `ValueError`; the value `a=b` is never assigned, contrary to the
claim (split at the first `=` only). -/
theorem claim3_code_behavior :
    pySplit "-flag=a=b" '=' = ["-flag", "a", "b"] ∧
    parse regStrFlag ["-flag=a=b"] = .error (.uncaughtValueError "-flag=a=b") := by
  exact ⟨by rfl, by rfl⟩

/-- Claim C4, counterexample: a successful parse in which the flag `x` is
assigned twice.  The argument list `-x 1 -x 2` is accepted, and
`flags_provided` — which receives one entry per executed assignment
`matched_flag.value = value` — holds `x` twice; the final value is the
last assignment, 2.  The claim states every flag is mutated at most once
in a single successful parse. -/
theorem claim4_counterexample :
    parse regIntX ["-x", "1", "-x", "2"] =
      .ok ({ flags_registered := [⟨"x", .int 0, "", false, .int, "", .int 2⟩],
             unsatisfied_mandatory := [] }, ["x", "x"]) := by
  rfl

/-- Claim C1 (amended): for a registered boolean flag, a token whose part
before the `=` does not start with `--` (in particular `-name=value`),
and a single-dash space-separated token with a following value token,
both fail with `BooleanFormatRequired`; the `--name=value` form, however,
is accepted (see the counterexample). -/
theorem claim1_amended (R : Registry) (arg rn v : String) (rest : List String)
    (f : Flag) :
    (strContainsChar arg '=' = true → pySplit arg '=' = [rn, v] →
      strStartsWith rn "--" = false →
      findFlag R (dashStrip rn) = some f → f.type = FlagKind.bool →
      parse R (arg :: rest) = .error (.booleanFormatRequired "-flag_name=value")) ∧
    (strContainsChar arg '=' = false → strStartsWith arg "--" = false →
      strStartsWith arg "-" = true →
      findFlag R (dashStrip arg) = some f → f.type = FlagKind.bool →
      ∀ w rest', rest = w :: rest' →
      parse R (arg :: rest) = .error (.booleanFormatRequired "-flag_name value")) := by
  constructor
  · intro hc hsplit hdd hfind htype
    have herr := applyToken_bool_wrongform R rn (.str v) true f hfind htype hdd
    have hstep := parseLoop_eqForm_err R arg rest [] rn v _ hc hsplit herr
    unfold parse
    rw [hstep]
    rfl
  · intro hc hdd hsd hfind htype w rest' hrest
    subst hrest
    have herr := applyToken_bool_wrongform R arg (.str w) false f hfind htype hdd
    have hstep := parseLoop_sd_err R arg w rest' [] _ hc hdd hsd herr
    unfold parse
    rw [hstep]
    rfl

/-- Witness for C1 (amended): `-verbose=true` and `-verbose true` both
fail with `BooleanFormatRequired` for the registered boolean `verbose`. -/
theorem claim1_amended_witness :
    parse regBoolVerbose ["-verbose=true"] =
      .error (.booleanFormatRequired "-flag_name=value") ∧
    parse regBoolVerbose ["-verbose", "true"] =
      .error (.booleanFormatRequired "-flag_name value") := by
  constructor
  · exact (claim1_amended regBoolVerbose "-verbose=true" "-verbose" "true" []
      ⟨"verbose", .bool false, "", false, .bool, "", .bool false⟩).1
      (by decide) (by rfl) (by decide) (by rfl) rfl
  · exact (claim1_amended regBoolVerbose "-verbose" "" "" ["true"]
      ⟨"verbose", .bool false, "", false, .bool, "", .bool false⟩).2
      (by decide) (by decide) (by decide) (by rfl) rfl "true" [] rfl

/-- Claim C4 (amended): a repeated flag name is assigned once per
matching token — here twice in one successful parse — and the last
assignment wins. -/
theorem claim4_amended (v1 v2 : String) (n1 n2 : ℤ)
    (h1 : strToInt v1 = some n1) (h2 : strToInt v2 = some n2) :
    parse regIntX ["-x", v1, "-x", v2] =
      .ok ({ flags_registered := [⟨"x", .int 0, "", false, .int, "", .int n2⟩],
             unsatisfied_mandatory := [] }, ["x", "x"]) := by
  have hfind1 : findFlag regIntX (dashStrip "-x") =
      some ⟨"x", .int 0, "", false, .int, "", .int 0⟩ := by rfl
  have hcv1 : convertTo FlagKind.int (.str v1) = some (.int n1) := by
    simp [convertTo, pyIntConv, h1]
  have s1 := applyToken_assign regIntX "-x" (.str v1) false _ _ hfind1
    (by simp) hcv1
  have l1 := parseLoop_sd_ok regIntX "-x" v1 ["-x", v2] [] _ _
    (by decide) (by decide) (by decide) s1
  have hfind2 : findFlag (updateFlag regIntX (dashStrip "-x") (.int n1))
      (dashStrip "-x") = some ⟨"x", .int 0, "", false, .int, "", .int n1⟩ := by rfl
  have hcv2 : convertTo FlagKind.int (.str v2) = some (.int n2) := by
    simp [convertTo, pyIntConv, h2]
  have s2 := applyToken_assign (updateFlag regIntX (dashStrip "-x") (.int n1))
    "-x" (.str v2) false _ _ hfind2 (by simp) hcv2
  have l2 := parseLoop_sd_ok (updateFlag regIntX (dashStrip "-x") (.int n1))
    "-x" v2 [] ([] ++ [dashStrip "-x"]) _ _ (by decide) (by decide) (by decide) s2
  unfold parse
  rw [l1, l2, parseLoop.eq_1]
  rfl

/-- Witness for C4 (amended), at the concrete values `1` and `2`. -/
theorem claim4_amended_witness :
    strToInt "1" = some 1 ∧ strToInt "2" = some 2 ∧
    parse regIntX ["-x", "1", "-x", "2"] =
      .ok ({ flags_registered := [⟨"x", .int 0, "", false, .int, "", .int 2⟩],
             unsatisfied_mandatory := [] }, ["x", "x"]) :=
  ⟨by rfl, by rfl, claim4_amended "1" "2" 1 2 (by rfl) (by rfl)⟩

/-- Claim C5: when the token loop succeeds but some mandatory flag's name
was never provided, `parse` fails with `MissingMandatoryFlag` naming the
head of the remaining `_unsatisfied_mandatory` entries — i.e. the
first-inserted unsatisfied mandatory flag (insertion order preserved). -/
theorem claim5_missing_mandatory (R : Registry) (argv : List String)
    (R' : Registry) (p : List String) (m : String) (ms : List String)
    (hloop : parseLoop R argv [] = .ok (R', p))
    (hrem : R.unsatisfied_mandatory.filter (fun n => ¬ p.contains n) = m :: ms) :
    parse R argv = .error (.missingMandatoryFlag m) := by
  unfold parse
  rw [hloop]
  dsimp only
  rw [(parseLoop_ok_spec R argv [] R' p hloop).1, hrem]

/-- Witness for C5: a mandatory string flag `target` absent from an empty
argument list. -/
theorem claim5_witness :
    parse regStrMand [] = .error (.missingMandatoryFlag "target") :=
  claim5_missing_mandatory regStrMand [] regStrMand [] "target" []
    (by rfl) (by rfl)

/-- Claim C6, counterexample: the description `pick '' here` contains
exactly one single-quoted substring (the empty one).  Construction
succeeds with an empty placeholder, but the quote characters are NOT
stripped from the stored description — `self.arg_name` is the empty
string, which is falsy, so the `replace` never runs.  The claim states
that with exactly one quoted substring the quotes are stripped. -/
theorem claim6_counterexample :
    findQuoted "pick '' here".data = [""] ∧
    Flag.init "p" (.str "d") FlagKind.str "pick '' here" false =
      .ok ⟨"p", .str "d", "pick '' here", false, .str, "", .str "d"⟩ :=
  ⟨by rfl, by rfl⟩

/-- Claim C6 (amended): zero quoted substrings → empty placeholder,
description unchanged; exactly one quoted substring → that substring
(after quote-character removal, a no-op) becomes the placeholder, and the
description is quote-stripped only when the placeholder is non-empty — a
single empty `''` leaves the description unchanged; two or more quoted
substrings → `AmbiguousPlaceholder`. -/
theorem claim6_amended (desc : String) :
    (findQuoted desc.data = [] → descInit desc = .ok ("", desc)) ∧
    (∀ m, findQuoted desc.data = [m] → removeSQ m ≠ "" →
        descInit desc = .ok (removeSQ m, removeSQ desc)) ∧
    (∀ m, findQuoted desc.data = [m] → removeSQ m = "" →
        descInit desc = .ok (removeSQ m, desc)) ∧
    (∀ m1 m2 ms, findQuoted desc.data = m1 :: m2 :: ms →
        descInit desc = .error (.ambiguousPlaceholder desc)) := by
  refine ⟨?_, ?_, ?_, ?_⟩
  · intro h
    unfold descInit getArgName
    rw [h]
    rfl
  · intro m h hne
    unfold descInit getArgName
    rw [h]
    dsimp only
    rw [if_pos hne]
  · intro m h he
    unfold descInit getArgName
    rw [h]
    dsimp only
    rw [if_neg (by simp [he])]
  · intro m1 m2 ms h
    unfold descInit getArgName
    rw [h]

/-- Witness for C6 (amended): a non-empty placeholder is extracted and
stripped; two quoted substrings are rejected. -/
theorem claim6_witness :
    descInit "port to 'PORT' listen on" = .ok ("PORT", "port to PORT listen on") ∧
    descInit "set 'A' or 'B'" = .error (.ambiguousPlaceholder "set 'A' or 'B'") := by
  constructor
  · exact (claim6_amended "port to 'PORT' listen on").2.1 "PORT" (by rfl) (by decide)
  · exact (claim6_amended "set 'A' or 'B'").2.2.2 "A" "B" [] (by rfl)

/-- Claim C7, counterexample: `FloatFlag('f', float('nan'), '')`.  The
default `nan` passes `isinstance(nan, float)`, construction succeeds and
`_value` is set to the default — but `is_default` is `self.value ==
self.default`, i.e. `nan == nan`, which is `False` in Python.  The claim
asserts `is_default == true` for every type-valid default. -/
theorem claim7_counterexample :
    typeCheck (.float .nan) FlagKind.float = true ∧
    Flag.init "f" (.float .nan) FlagKind.float "" false =
      .ok ⟨"f", .float .nan, "", false, .float, "", .float .nan⟩ ∧
    (⟨"f", .float .nan, "", false, .float, "", .float .nan⟩ : Flag)._value =
      .float .nan ∧
    (⟨"f", .float .nan, "", false, .float, "", .float .nan⟩ : Flag).is_default =
      false :=
  ⟨rfl, by rfl, rfl, rfl⟩

/-- Claim C7 (amended): a flag constructed with a default that passes the
kind's type check, and never parsed, has `value` equal to the default;
`is_default` is `true` for every such default EXCEPT a float NaN default,
for which `value == default` is `nan == nan`, i.e. `false`. -/
theorem claim7_default_preserved (name : String) (d : Scalar) (k : FlagKind)
    (desc : String) (mand : Bool) (f : Flag)
    (h : Flag.init name d k desc mand = .ok f) :
    f._value = d ∧ f.default = d ∧
    (d ≠ .float .nan → f.is_default = true) ∧
    (d = .float .nan → f.is_default = false) := by
  unfold Flag.init at h
  by_cases ht : typeCheck d k = true
  · rw [if_pos ht] at h
    cases hd : descInit desc with
    | error e => rw [hd] at h; exact absurd h (by simp)
    | ok pr =>
      obtain ⟨argName, desc'⟩ := pr
      rw [hd] at h
      dsimp only at h
      injection h with h1
      subst h1
      refine ⟨rfl, rfl, ?_, ?_⟩
      · intro hne
        exact pyEq_refl_of_ne_nan d hne
      · intro he
        subst he
        rfl
  · rw [if_neg ht] at h
    exact absurd h (by simp)

/-- Witness for C7 (amended), at a concrete integer flag and at the NaN
float flag. -/
theorem claim7_witness :
    (Flag.init "port" (.int 8080) FlagKind.int "the port" false =
        .ok ⟨"port", .int 8080, "the port", false, .int, "", .int 8080⟩ ∧
      (⟨"port", .int 8080, "the port", false, .int, "", .int 8080⟩ : Flag)._value
          = .int 8080 ∧
      (⟨"port", .int 8080, "the port", false, .int, "", .int 8080⟩ : Flag).default
          = .int 8080 ∧
      (⟨"port", .int 8080, "the port", false, .int, "", .int 8080⟩ : Flag).is_default
          = true) ∧
    (Flag.init "f" (.float .nan) FlagKind.float "" false =
        .ok ⟨"f", .float .nan, "", false, .float, "", .float .nan⟩ ∧
      (⟨"f", .float .nan, "", false, .float, "", .float .nan⟩ : Flag).is_default
          = false) := by
  have h : Flag.init "port" (.int 8080) FlagKind.int "the port" false =
      .ok ⟨"port", .int 8080, "the port", false, .int, "", .int 8080⟩ := by rfl
  have hc := claim7_default_preserved _ _ _ _ _ _ h
  have hn : Flag.init "f" (.float .nan) FlagKind.float "" false =
      .ok ⟨"f", .float .nan, "", false, .float, "", .float .nan⟩ := by rfl
  have hcn := claim7_default_preserved _ _ _ _ _ _ hn
  exact ⟨⟨h, hc.1, hc.2.1, hc.2.2.1 (by decide)⟩, hn, hcn.2.2.2 rfl⟩

/-- Claim C8: for int and float flags, `==` against a convertible operand
holds iff the converted operand equals the stored value, and each
ordering comparison equals the corresponding Python comparison of the
stored value against the converted operand. -/
theorem claim8_comparisons (f : Flag) (o : Scalar) :
    (∀ n, pyIntConv o = some n →
      ((IntFlag.eqM f o = some true) ↔ pyEq (.int n) f._value = true) ∧
      IntFlag.ltM f o = pyLt f._value (.int n) ∧
      IntFlag.leM f o = pyLe f._value (.int n) ∧
      IntFlag.gtM f o = pyGt f._value (.int n) ∧
      IntFlag.geM f o = pyGe f._value (.int n)) ∧
    (∀ q, pyFloatConv o = some q →
      ((FloatFlag.eqM f o = some true) ↔ pyEq (.float q) f._value = true) ∧
      FloatFlag.ltM f o = pyLt f._value (.float q) ∧
      FloatFlag.leM f o = pyLe f._value (.float q) ∧
      FloatFlag.gtM f o = pyGt f._value (.float q) ∧
      FloatFlag.geM f o = pyGe f._value (.float q)) := by
  constructor
  · intro n h
    refine ⟨?_, ?_, ?_, ?_, ?_⟩
    · rw [show IntFlag.eqM f o = some (pyEq f._value (.int n)) from by
        simp [IntFlag.eqM, h]]
      rw [pyEq_symm_int]
      simp
    · simp [IntFlag.ltM, h]
    · simp [IntFlag.leM, h]
    · simp [IntFlag.gtM, h]
    · simp [IntFlag.geM, h]
  · intro q h
    refine ⟨?_, ?_, ?_, ?_, ?_⟩
    · rw [show FloatFlag.eqM f o = some (pyEq f._value (.float q)) from by
        simp [FloatFlag.eqM, h]]
      rw [pyEq_symm_float]
      simp
    · simp [FloatFlag.ltM, h]
    · simp [FloatFlag.leM, h]
    · simp [FloatFlag.gtM, h]
    · simp [FloatFlag.geM, h]

/-- Witness for C8: the operand `.str "5"` converts to 5 under both
`int` and `float`, and the comparison contracts hold at a concrete
int-flag value. -/
theorem claim8_witness :
    pyIntConv (.str "5") = some 5 ∧
    pyFloatConv (.str "5") = some (.finite 5) ∧
    (((IntFlag.eqM ⟨"n", .int 0, "", false, .int, "", .int 5⟩ (.str "5") = some true) ↔
        pyEq (.int 5) (⟨"n", .int 0, "", false, .int, "", .int 5⟩ : Flag)._value = true) ∧
      IntFlag.ltM ⟨"n", .int 0, "", false, .int, "", .int 5⟩ (.str "5") =
        pyLt (⟨"n", .int 0, "", false, .int, "", .int 5⟩ : Flag)._value (.int 5) ∧
      IntFlag.leM ⟨"n", .int 0, "", false, .int, "", .int 5⟩ (.str "5") =
        pyLe (⟨"n", .int 0, "", false, .int, "", .int 5⟩ : Flag)._value (.int 5) ∧
      IntFlag.gtM ⟨"n", .int 0, "", false, .int, "", .int 5⟩ (.str "5") =
        pyGt (⟨"n", .int 0, "", false, .int, "", .int 5⟩ : Flag)._value (.int 5) ∧
      IntFlag.geM ⟨"n", .int 0, "", false, .int, "", .int 5⟩ (.str "5") =
        pyGe (⟨"n", .int 0, "", false, .int, "", .int 5⟩ : Flag)._value (.int 5)) ∧
    (((FloatFlag.eqM ⟨"h", .float (.finite 0), "", false, .float, "", .float (.finite 5)⟩ (.str "5") = some true) ↔
        pyEq (.float (.finite 5)) (⟨"h", .float (.finite 0), "", false, .float, "", .float (.finite 5)⟩ : Flag)._value = true) ∧
      FloatFlag.ltM ⟨"h", .float (.finite 0), "", false, .float, "", .float (.finite 5)⟩ (.str "5") =
        pyLt (⟨"h", .float (.finite 0), "", false, .float, "", .float (.finite 5)⟩ : Flag)._value (.float (.finite 5)) ∧
      FloatFlag.leM ⟨"h", .float (.finite 0), "", false, .float, "", .float (.finite 5)⟩ (.str "5") =
        pyLe (⟨"h", .float (.finite 0), "", false, .float, "", .float (.finite 5)⟩ : Flag)._value (.float (.finite 5)) ∧
      FloatFlag.gtM ⟨"h", .float (.finite 0), "", false, .float, "", .float (.finite 5)⟩ (.str "5") =
        pyGt (⟨"h", .float (.finite 0), "", false, .float, "", .float (.finite 5)⟩ : Flag)._value (.float (.finite 5)) ∧
      FloatFlag.geM ⟨"h", .float (.finite 0), "", false, .float, "", .float (.finite 5)⟩ (.str "5") =
        pyGe (⟨"h", .float (.finite 0), "", false, .float, "", .float (.finite 5)⟩ : Flag)._value (.float (.finite 5))) := by
  have hi : pyIntConv (.str "5") = some 5 := by rfl
  have hf : pyFloatConv (.str "5") = some (.finite 5) := by
    show strToFloat "5" = some (.finite 5)
    rfl
  exact ⟨hi, hf,
    (claim8_comparisons ⟨"n", .int 0, "", false, .int, "", .int 5⟩ (.str "5")).1 5 hi,
    (claim8_comparisons ⟨"h", .float (.finite 0), "", false, .float, "", .float (.finite 5)⟩ (.str "5")).2 (.finite 5) hf⟩

/-- Claim C9: a bare `--name` token naming a registered NON-boolean flag
is accepted (no format error) and the flag receives `type(True)`: `1` for
an int flag, `'True'` for a string flag. -/
theorem claim9_double_dash_nonbool (R : Registry) (t : String) (f : Flag)
    (hne : strContainsChar t '=' = false)
    (hdd : strStartsWith t "--" = true)
    (hfind : findFlag R (dashStrip t) = some f)
    (hnb : f.type ≠ FlagKind.bool)
    (hmand : R.unsatisfied_mandatory.filter
        (fun n => ¬ ([] ++ [dashStrip t]).contains n) = []) :
    parse R [t] =
      .ok ({ updateFlag R (dashStrip t) (boolTrueAs f.type) with
             unsatisfied_mandatory := [] }, [] ++ [dashStrip t]) ∧
    findFlag (updateFlag R (dashStrip t) (boolTrueAs f.type)) (dashStrip t) =
      some { f with _value := boolTrueAs f.type } ∧
    (f.type = FlagKind.int → boolTrueAs f.type = .int 1) ∧
    (f.type = FlagKind.str → boolTrueAs f.type = .str "True") := by
  have hok := applyToken_assign R t (.bool true) false f (boolTrueAs f.type) hfind
    (fun hcon => hnb hcon.1) (convertTo_boolTrue f.type)
  have l1 := parseLoop_dd_ok R t [] [] _ _ hne hdd hok
  refine ⟨?_, ?_, ?_, ?_⟩
  · unfold parse
    rw [l1, parseLoop.eq_1]
    dsimp only
    rw [show (updateFlag R (dashStrip t) (boolTrueAs f.type)).unsatisfied_mandatory
        = R.unsatisfied_mandatory from rfl]
    rw [hmand]
  · rw [findFlag_update_self, hfind]
    rfl
  · intro hke
    rw [hke]
    rfl
  · intro hke
    rw [hke]
    rfl

/-- Witness for C9: `--x` for the registered int flag `x` parses
successfully and sets `x` to `int(True) = 1`. -/
theorem claim9_witness :
    parse regIntX ["--x"] =
      .ok ({ flags_registered := [⟨"x", .int 0, "", false, .int, "", .int 1⟩],
             unsatisfied_mandatory := [] }, ["x"]) := by
  have h := (claim9_double_dash_nonbool regIntX "--x"
      ⟨"x", .int 0, "", false, .int, "", .int 0⟩
      (by decide) (by decide) (by rfl) (by decide) (by rfl)).1
  exact h

/-- Claim C10: after any successful `parse`, every registered flag whose
name is not among the provided names is completely unchanged (in
particular it keeps its previous value). -/
theorem claim10_frame (R : Registry) (argv : List String) (R' : Registry)
    (p : List String) (h : parse R argv = .ok (R', p)) :
    ∀ n, n ∉ p → findFlag R' n = findFlag R n := by
  unfold parse at h
  cases hl : parseLoop R argv [] with
  | error e =>
    rw [hl] at h
    exact absurd h (by simp)
  | ok pr =>
    obtain ⟨R1, p1⟩ := pr
    rw [hl] at h
    dsimp only at h
    cases hf : R1.unsatisfied_mandatory.filter (fun n => ¬ p1.contains n) with
    | cons m ms =>
      rw [hf] at h
      exact absurd h (by simp)
    | nil =>
      rw [hf] at h
      injection h with h1
      injection h1 with hR hp
      subst hp
      subst hR
      intro n hn
      exact (parseLoop_ok_spec R argv [] R1 _ hl).2.2 n hn

/-- Witness for C10: parsing `-x 1` against a registry holding `x` and
`y` leaves `y` exactly as before. -/
theorem claim10_witness :
    parse regXY ["-x", "1"] = .ok (regXY1, ["x"]) ∧
    findFlag regXY1 "y" = findFlag regXY "y" := by
  have h : parse regXY ["-x", "1"] = .ok (regXY1, ["x"]) := by rfl
  exact ⟨h, claim10_frame regXY ["-x", "1"] regXY1 ["x"] h "y" (by decide)⟩

end FlagLib
